import Mathlib

/-!
Verification of the ys-movie core: the Wan2.2 workflow-graph builder
(`core/api/specialized/wan22_i2v.py`), the ComfyUI protocol client
(`core/comfyui_client.py`), the history status classifier
(`core/api/task.py`) and the task registry (`core/managers.py`),
shallowly embedded in Lean 4.

Node-parameter values are embedded by the `NVal` type; a ComfyUI workflow
is an ordered association list from node id to node record, mirroring the
Python dict (insertion order preserved, later assignment wins on lookup).
-/

namespace YsMovie

/-- A node-parameter value of a ComfyUI workflow: a literal (string, int,
float, bool, None) or a reference `[node_id, output_slot]` to another
node's output. Floats are embedded as rationals (they are only stored,
never computed with). -/
inductive NVal where
  | str (s : String)
  | int (n : Int)
  | flo (q : ℚ)
  | bool (b : Bool)
  | none
  | ref (node : String) (slot : Nat)
  deriving DecidableEq, Repr

/-- A workflow node record: `class_type`, `_meta.title` and the `inputs`
mapping (parameter name to value or reference). -/
structure WNode where
  class_type : String
  title : String
  inputs : List (String × NVal)
  deriving DecidableEq, Repr

/-- A workflow: ordered mapping from node id to node record, as the Python
dict built by `generate_wan22_workflow`. -/
abbrev Workflow := List (String × WNode)

/-- Python-dict lookup on a workflow: the last binding for a key wins
(successive `dict.update` calls override earlier entries). -/
def dictLookup (w : Workflow) (k : String) : Option WNode :=
  w.foldl (fun acc kv => if kv.1 = k then some kv.2 else acc) Option.none

/-- The node ids (keys) of a workflow, in insertion order. -/
def wfKeys (w : Workflow) : List String := w.map Prod.fst

/-- The node ids referenced by a node's inputs (the `node` component of
every `NVal.ref` among its parameter values). -/
def nodeRefs (nd : WNode) : List String :=
  nd.inputs.filterMap (fun kv => match kv.2 with
    | NVal.ref n _ => some n
    | _ => Option.none)

/-- Look up a parameter of a node record by name. -/
def fieldOf (nd : WNode) (f : String) : Option NVal := nd.inputs.lookup f

/-- Look up a parameter of the node with id `k` in workflow `w`. -/
def nodeField (w : Workflow) (k f : String) : Option NVal :=
  (dictLookup w k).bind (fun nd => fieldOf nd f)

/-- The `prompt` argument of `Wan22I2VRequest` / `generate_wan22_workflow`:
`Union[str, List[str]]`. -/
inductive PromptArg where
  | single (s : String)
  | list (l : List String)
  deriving DecidableEq, Repr

/-- The base nodes shared by every generated workflow
(`generate_wan22_workflow`, the `workflow = { "16": ..., "120": ... }`
literal). -/
def baseNodes (image_filename : String) (width height frame_rate steps : Nat) : Workflow :=
  [ ("16", ⟨"LoadImage", "Start Frame", [("image", NVal.str image_filename)]⟩),
    ("26", ⟨"CheckpointLoaderSimple", "Load Checkpoint",
      [("ckpt_name", NVal.str "wan2.2-rapid-mega-aio-v12.safetensors")]⟩),
    ("32", ⟨"ModelSamplingSD3", "ModelSampling",
      [("shift", NVal.int 8), ("model", NVal.ref "26" 0)]⟩),
    ("44", ⟨"Float", "Frame Rate", [("value", NVal.int frame_rate)]⟩),
    ("57", ⟨"ResolutionMaster", "Resolution Master",
      [("mode", NVal.str "Manual"), ("width", NVal.int width), ("height", NVal.int height),
       ("auto_detect", NVal.bool true), ("rescale_mode", NVal.str "resolution"),
       ("rescale_value", NVal.flo (2.27866357593825 : ℚ)),
       ("input_image", NVal.ref "16" 0)]⟩),
    ("58", ⟨"ImageResizeKJv2", "Resize Image",
      [("width", NVal.ref "57" 0), ("height", NVal.ref "57" 1),
       ("upscale_method", NVal.str "nearest-exact"),
       ("keep_proportion", NVal.str "stretch"), ("pad_color", NVal.str "0, 0, 0"),
       ("crop_position", NVal.str "center"), ("divisible_by", NVal.int 2),
       ("device", NVal.str "cpu"), ("image", NVal.ref "16" 0)]⟩),
    ("120", ⟨"PrimitiveInt", "steps", [("value", NVal.int steps)]⟩) ]

/-- The `VHS_VideoCombine` output node ("39"), parameterised by its
`images` input. -/
def videoCombineNode (images : NVal) : WNode :=
  ⟨"VHS_VideoCombine", "Video Output",
    [("frame_rate", NVal.ref "44" 0), ("loop_count", NVal.int 0),
     ("filename_prefix", NVal.str "wan2.2_video"),
     ("format", NVal.str "video/h264-mp4"), ("pix_fmt", NVal.str "yuv420p"),
     ("crf", NVal.int 19), ("save_metadata", NVal.bool true),
     ("trim_to_audio", NVal.bool false), ("pingpong", NVal.bool false),
     ("save_output", NVal.bool true), ("images", images)]⟩

/-- `generate_single_segment(index, seed, prompt, negative_prompt,
segment_length, overlap_frames, prefix)`: the eight nodes of one 5-second
segment. Segment 0 renders exactly `segment_length` frames; a later
segment renders `segment_length + overlap_frames`. The prefix is the
numeric node-id prefix (the Python code passes it as a string and parses
it back with `int`). -/
def generate_single_segment (index : Nat) (seed : Int) (prompt negative_prompt : String)
    (segment_length overlap_frames pfx : Nat) : Workflow :=
  let effective_length := if index = 0 then segment_length else segment_length + overlap_frames
  let start_empty_level : ℚ := if index = 0 then (0.5 : ℚ) else (0.2 : ℚ)
  let p := toString pfx
  [ (p ++ ":34", ⟨"WanVideoVACEStartToEndFrame", "VACE Frame " ++ toString index,
      [("num_frames", NVal.int effective_length),
       ("empty_frame_level", NVal.flo start_empty_level),
       ("start_index", NVal.int 0), ("end_index", NVal.int (-1)),
       ("start_image", if index = 0 then NVal.ref "58" 0
         else NVal.ref (toString (pfx - 6) ++ ":91") 0)]⟩),
    (p ++ ":10", ⟨"CLIPTextEncode", "Negative Prompt",
      [("text", NVal.str negative_prompt), ("clip", NVal.ref "26" 1)]⟩),
    (p ++ ":70", ⟨"CR Text", "Prompt " ++ toString index,
      [("text", NVal.str prompt)]⟩),
    (p ++ ":9", ⟨"CLIPTextEncode", "Positive Prompt",
      [("text", NVal.ref (p ++ ":70") 0), ("clip", NVal.ref "26" 1)]⟩),
    (p ++ ":28", ⟨"WanVaceToVideo", "VaceToVideo",
      [("width", NVal.ref "58" 1), ("height", NVal.ref "58" 2),
       ("length", NVal.int effective_length), ("batch_size", NVal.int 1),
       ("strength", NVal.int 1), ("positive", NVal.ref (p ++ ":9") 0),
       ("negative", NVal.ref (p ++ ":10") 0), ("vae", NVal.ref "26" 2),
       ("control_video", NVal.ref (p ++ ":34") 0),
       ("control_masks", NVal.ref (p ++ ":34") 1)]⟩),
    (p ++ ":8", ⟨"KSampler", "Sampler",
      [("seed", NVal.int seed), ("steps", NVal.ref "120" 0), ("cfg", NVal.int 1),
       ("sampler_name", NVal.str "ipndm"), ("scheduler", NVal.str "sgm_uniform"),
       ("denoise", NVal.int 1), ("model", NVal.ref "32" 0),
       ("positive", NVal.ref (p ++ ":28") 0), ("negative", NVal.ref (p ++ ":28") 1),
       ("latent_image", NVal.ref (p ++ ":28") 2)]⟩),
    (p ++ ":11", ⟨"VAEDecode", "VAE Decode",
      [("samples", NVal.ref (p ++ ":8") 0), ("vae", NVal.ref "26" 2)]⟩),
    (p ++ ":91", ⟨"GetImageRangeFromBatch", "Get End Frames",
      [("start_index", NVal.int (max 0
          (((if index = 0 then segment_length else effective_length) : Int) - overlap_frames))),
       ("num_frames", NVal.int overlap_frames),
       ("images", NVal.ref (p ++ ":11") 0)]⟩) ]

/-- `generate_linked_segment`: a later segment, generated by
`generate_single_segment` and then re-linking its `:34` node's
`start_image` to the previous segment's `:91` (last overlap frames). -/
def generate_linked_segment (index : Nat) (seed : Int) (prompt negative_prompt : String)
    (prevPfx currPfx : Nat) (segment_length overlap_frames : Nat) : Workflow :=
  (generate_single_segment index seed prompt negative_prompt segment_length overlap_frames currPfx).map
    (fun kv => if kv.1 = toString currPfx ++ ":34" then
        (kv.1, { kv.2 with inputs := kv.2.inputs.map (fun fv =>
          if fv.1 = "start_image" then (fv.1, NVal.ref (toString prevPfx ++ ":91") 0) else fv) })
      else kv)

/-- `generate_final_merge(num_segments, overlap_frames, segment_length)`:
for every segment `i >= 1`, a trim node `:92` dropping the first
`overlap_frames` frames and keeping exactly `segment_length` frames, a
running merge node `:88`, then the optional `ColorMatch` node "100" and
the `VHS_VideoCombine` output node "39". -/
def generate_final_merge (num_segments overlap_frames segment_length : Nat) : Workflow :=
  ((List.range' 1 (num_segments - 1)).map (fun i =>
    let p := toString (70 + i * 6)
    let pv := toString (70 + (i - 1) * 6)
    [ (p ++ ":92", ⟨"ImageFromBatch", "Trim Start " ++ toString i,
        [("batch_index", NVal.int overlap_frames), ("length", NVal.int segment_length),
         ("image", NVal.ref (p ++ ":11") 0)]⟩),
      (p ++ ":88",
        if i = 1 then
          ⟨"ImageBatchMulti", "Merge 0-1",
            [("inputcount", NVal.int 2), ("Update inputs", NVal.none),
             ("image_1", NVal.ref "70:11" 0), ("image_2", NVal.ref (p ++ ":92") 0)]⟩
        else
          ⟨"ImageBatchMulti", "Merge 0-" ++ toString i,
            [("inputcount", NVal.int 2), ("Update inputs", NVal.none),
             ("image_1", NVal.ref (pv ++ ":88") 0),
             ("image_2", NVal.ref (p ++ ":92") 0)]⟩) ])).flatten
  ++ [ ("100", ⟨"ColorMatch", "Color Match",
        [("method", NVal.str "mkl"), ("strength", NVal.int 1),
         ("multithread", NVal.bool true), ("image_ref", NVal.ref "16" 0),
         ("image_target",
           if num_segments > 1 then NVal.ref (toString (70 + (num_segments - 1) * 6) ++ ":88") 0
           else NVal.ref "70:11" 0)]⟩),
       ("39", videoCombineNode (NVal.ref "100" 0)) ]

/-- The workflow built by `generate_wan22_workflow` after its prompt-count
validation succeeded: `segment_length` frames per segment (81 at 16 fps,
else `round(5*frame_rate)` which equals `5*frame_rate` on integers),
`overlap_frames = clamp(round(frame_rate), 8, 24)`, per-segment seeds
`seed + i * 1_000_000`, the base nodes, segment 0, the linked segments
`1..num_segments-1` and — for multi-segment requests — the final merge. -/
def buildWorkflow (image_filename : String) (prompts : List String) (negative_prompt : String)
    (num_segments width height frame_rate steps : Nat) (seed : Int) : Workflow :=
  let segment_length := if frame_rate = 16 then 81 else 5 * frame_rate
  let overlap_frames := max 8 (min 24 frame_rate)
  let segment_seeds := (List.range num_segments).map (fun i => seed + (i : Int) * 1000000)
  let base := baseNodes image_filename width height frame_rate steps
  if num_segments = 1 then
    base
      ++ generate_single_segment 0 (segment_seeds.getD 0 0) (prompts.getD 0 "")
          negative_prompt segment_length overlap_frames 70
      ++ [("39", videoCombineNode (NVal.ref "70:11" 0))]
  else
    base
      ++ generate_single_segment 0 (segment_seeds.getD 0 0) (prompts.getD 0 "")
          negative_prompt segment_length overlap_frames 70
      ++ ((List.range' 1 (num_segments - 1)).map (fun i =>
            generate_linked_segment i (segment_seeds.getD i 0) (prompts.getD i "")
              negative_prompt (70 + (i - 1) * 6) (70 + i * 6)
              segment_length overlap_frames)).flatten
      ++ generate_final_merge num_segments overlap_frames segment_length

/-- `generate_wan22_workflow`: normalises the prompt argument to a list
(a single string is replicated over `duration // 5` segments), validates
the prompt count (`ValueError` on mismatch, before any node is built),
resolves `seed == -1` to a fresh random value (passed in explicitly as
`rand_seed` to keep the embedding pure) and builds the workflow. -/
def generate_wan22_workflow (image_filename : String) (prompt : PromptArg)
    (negative_prompt : String) (duration width height frame_rate steps : Nat)
    (seed rand_seed : Int) : Except String Workflow :=
  let num_segments := duration / 5
  let prompts := match prompt with
    | PromptArg.single s => List.replicate num_segments s
    | PromptArg.list l => l
  if prompts.length ≠ num_segments then
    Except.error ("提示词数量(" ++ toString prompts.length ++ ")与片段数量("
      ++ toString num_segments ++ ")不匹配")
  else
    Except.ok (buildWorkflow image_filename prompts negative_prompt num_segments
      width height frame_rate steps (if seed = -1 then rand_seed else seed))

/-- The pydantic validation of `Wan22I2VRequest`: the declared `Field`
bounds (`duration` 5..30, `width`/`height` 256..1920, `frame_rate` 8..30,
`steps` 1..20) followed by the `validate_prompt_and_duration` model
validator (a prompt list must have exactly `duration // 5` entries; a
single string only produces a warning). -/
structure Wan22I2VRequest where
  prompt : PromptArg
  negative_prompt : String
  duration : Nat
  width : Nat
  height : Nat
  frame_rate : Nat
  steps : Nat
  seed : Int
  image_filename : Option String
  deriving DecidableEq, Repr

/-- Validation outcome of constructing a `Wan22I2VRequest`: either the
request is accepted or pydantic raises a validation error. -/
def validateWan22Request (r : Wan22I2VRequest) : Except String Unit :=
  if ¬(5 ≤ r.duration ∧ r.duration ≤ 30) then Except.error "duration must be between 5 and 30"
  else if ¬(256 ≤ r.width ∧ r.width ≤ 1920) then Except.error "width must be between 256 and 1920"
  else if ¬(256 ≤ r.height ∧ r.height ≤ 1920) then Except.error "height must be between 256 and 1920"
  else if ¬(8 ≤ r.frame_rate ∧ r.frame_rate ≤ 30) then Except.error "frame_rate must be between 8 and 30"
  else if ¬(1 ≤ r.steps ∧ r.steps ≤ 20) then Except.error "steps must be between 1 and 20"
  else match r.prompt with
    | PromptArg.single _ => Except.ok ()
    | PromptArg.list l =>
      if l.length = r.duration / 5 then Except.ok ()
      else Except.error ("提示词数量(" ++ toString l.length ++ ")与视频片段数量("
        ++ toString (r.duration / 5) ++ ")不匹配")

/-- The node-id prefix of segment `i` rendered as a string (`70 + i*6`). -/
def segPfx (i : Nat) : String := toString (70 + i * 6)

/-- Rendered frame count of segment `i`: the `num_frames` parameter of its
`WanVideoVACEStartToEndFrame` node. -/
def renderLen (w : Workflow) (i : Nat) : Option NVal :=
  nodeField w (segPfx i ++ ":34") "num_frames"

/-- Frames trimmed from the start of segment `i` before merging: the
`batch_index` parameter of its `ImageFromBatch` trim node. -/
def trimStart (w : Workflow) (i : Nat) : Option NVal :=
  nodeField w (segPfx i ++ ":92") "batch_index"

/-- Frames of segment `i` kept for the merged timeline: the `length`
parameter of its `ImageFromBatch` trim node. -/
def trimLen (w : Workflow) (i : Nat) : Option NVal :=
  nodeField w (segPfx i ++ ":92") "length"

/-- The seed assigned to segment `i`'s `KSampler` node. -/
def samplerSeed (w : Workflow) (i : Nat) : Option NVal :=
  nodeField w (segPfx i ++ ":8") "seed"

/-- Project an integer node-parameter value. -/
def asInt : Option NVal → Option Int
  | some (NVal.int n) => some n
  | _ => Option.none

/-- Frame count of the merged timeline handed to the encoder: segment 0's
full render plus, for every later segment, the frames its trim node keeps. -/
def mergedFrames (w : Workflow) (n : Nat) : Option Int := do
  let r0 ← asInt (renderLen w 0)
  let ts ← (List.range' 1 (n - 1)).mapM (fun i => asInt (trimLen w i))
  pure (r0 + ts.sum)

/-! ## JSON-like values

`JVal` embeds the loosely-typed JSON data the protocol client and the
task API handle (history records, task dicts). The `py*` helpers embed
the dynamic semantics of the Python operations used on them; each returns
`Except String` whose error is the Python exception class raised. -/

/-- A JSON value as handled by the Python code (dicts keep insertion
order; numeric payloads in the claims' scope are integers). -/
inductive JVal where
  | null
  | bool (b : Bool)
  | int (n : Int)
  | str (s : String)
  | arr (xs : List JVal)
  | obj (kvs : List (String × JVal))
  deriving Repr

/-- Python truthiness: `None`, `False`, `0`, `""`, `[]`, `{}` are falsy. -/
def pyTruthy : JVal → Bool
  | JVal.null => false
  | JVal.bool b => b
  | JVal.int n => n != 0
  | JVal.str s => s ≠ ""
  | JVal.arr xs => ¬xs.isEmpty
  | JVal.obj kvs => ¬kvs.isEmpty

/-- `v.get(k, default)`: only dicts have `.get`; anything else raises
`AttributeError`. -/
def pyGet (v : JVal) (k : String) (dflt : JVal) : Except String JVal :=
  match v with
  | JVal.obj kvs => Except.ok ((kvs.lookup k).getD dflt)
  | _ => Except.error "AttributeError"

/-- `v[k]` for a string key: dict lookup (`KeyError` when absent); other
receivers raise. -/
def pyGetItem (v : JVal) (k : String) : Except String JVal :=
  match v with
  | JVal.obj kvs =>
    match kvs.lookup k with
    | some x => Except.ok x
    | Option.none => Except.error "KeyError"
  | _ => Except.error "TypeError"

/-- `len(v)`: defined for strings, lists and dicts; raises `TypeError`
otherwise. -/
def pyLen (v : JVal) : Except String Nat :=
  match v with
  | JVal.str s => Except.ok s.length
  | JVal.arr xs => Except.ok xs.length
  | JVal.obj kvs => Except.ok kvs.length
  | _ => Except.error "TypeError"

/-- `v[i]` for an integer index: list indexing (`IndexError` out of
range), string indexing (a one-character string); dicts raise `KeyError`
for an integer key absent from their string keys; other receivers raise
`TypeError`. -/
def pyIndex (v : JVal) (i : Nat) : Except String JVal :=
  match v with
  | JVal.arr xs =>
    match xs.get? i with
    | some x => Except.ok x
    | Option.none => Except.error "IndexError"
  | JVal.str s =>
    match s.data.get? i with
    | some c => Except.ok (JVal.str (String.singleton c))
    | Option.none => Except.error "IndexError"
  | JVal.obj _ => Except.error "KeyError"
  | _ => Except.error "TypeError"

/-- `for x in v`: lists yield their elements, strings their characters,
dicts their keys; other values raise `TypeError`. -/
def pyIter (v : JVal) : Except String (List JVal) :=
  match v with
  | JVal.arr xs => Except.ok xs
  | JVal.str s => Except.ok (s.data.map (fun c => JVal.str (String.singleton c)))
  | JVal.obj kvs => Except.ok (kvs.map (fun kv => JVal.str kv.1))
  | _ => Except.error "TypeError"

/-- `a + b`: concatenation for strings and lists, addition for ints;
mixed operands raise `TypeError`. -/
def pyAdd (a b : JVal) : Except String JVal :=
  match a, b with
  | JVal.str x, JVal.str y => Except.ok (JVal.str (x ++ y))
  | JVal.int x, JVal.int y => Except.ok (JVal.int (x + y))
  | JVal.arr x, JVal.arr y => Except.ok (JVal.arr (x ++ y))
  | _, _ => Except.error "TypeError"

/-- `sep.join(items)`: every element must be a string, else `TypeError`. -/
def pyJoin (sep : String) (items : List JVal) : Except String String :=
  match items.mapM (fun v => match v with
    | JVal.str s => some s
    | _ => Option.none) with
  | some strs => Except.ok (String.intercalate sep strs)
  | Option.none => Except.error "TypeError"

/-- `k in v`: dict key containment; lists test element equality against
the string; other receivers raise `TypeError` (unreachable in
`check_task_status_from_history`, which only applies it after a
successful `.get` proved the receiver a dict). -/
def pyContains (v : JVal) (k : String) : Except String Bool :=
  match v with
  | JVal.obj kvs => Except.ok ((kvs.map Prod.fst).contains k)
  | JVal.arr xs => Except.ok (xs.any (fun x => match x with
      | JVal.str s => s = k
      | _ => false))
  | _ => Except.error "TypeError"

/-! ## The history status classifier (`core/api/task.py`) -/

/-- One step of the `for message in messages` loop of
`check_task_status_from_history`: threads the
`(has_execution_start, has_execution_success, error_messages)` state. -/
def processMessage (msg : JVal) (st : Bool × Bool × List JVal) :
    Except String (Bool × Bool × List JVal) := do
  let (hstart, hsucc, errs) := st
  let n ← pyLen msg
  if n ≥ 2 then
    let event_type ← pyIndex msg 0
    let event_data ← pyIndex msg 1
    if event_type matches JVal.str "execution_start" then
      pure (true, hsucc, errs)
    else if event_type matches JVal.str "execution_success" then
      pure (hstart, true, errs)
    else if event_type matches JVal.str "execution_error" then do
      let e0 ← pyGet event_data "exception_message" (JVal.str "")
      let einfo ←
        if pyTruthy e0 then pure e0
        else do
          let nt ← pyGet event_data "node_type" (JVal.str "")
          pyAdd nt (JVal.str " 节点执行失败")
      pure (hstart, hsucc, errs ++ [einfo])
    else if event_type matches JVal.str "execution_interrupted" then
      pure (hstart, hsucc, errs ++ [JVal.str "任务被中断"])
    else
      pure (hstart, hsucc, errs)
  else
    pure (hstart, hsucc, errs)

/-- `'outputs' not in history_data or not history_data['outputs']`, with
Python short-circuiting. -/
def outputsMissing (history_data : JVal) : Except String Bool := do
  let c ← pyContains history_data "outputs"
  if ¬c then pure true
  else do
    let o ← pyGetItem history_data "outputs"
    pure (¬pyTruthy o)

/-- `node_output and isinstance(node_output, dict)` guard followed by
`node_output.get('images') or .get('gifs') or .get('videos') or
.get('audio')`: whether one node produced a usable artifact. The
`isinstance` guard makes the `.get` calls safe, so this is exception-free. -/
def nodeHasValidOutput (node_output : JVal) : Bool :=
  pyTruthy node_output &&
    match node_output with
    | JVal.obj kvs =>
      pyTruthy ((kvs.lookup "images").getD JVal.null) ||
      pyTruthy ((kvs.lookup "gifs").getD JVal.null) ||
      pyTruthy ((kvs.lookup "videos").getD JVal.null) ||
      pyTruthy ((kvs.lookup "audio").getD JVal.null)
    | _ => false

/-- The `try` body of `check_task_status_from_history`: scan
`status.messages` for error/interrupt events, then fall back to
inspecting `outputs`; Python's early `return`s become the nested
branches. Any raised exception surfaces as `Except.error`. -/
def checkStatusBody (history_data : JVal) : Except String (String × Option String) := do
  let status ← pyGet history_data "status" (JVal.obj [])
  let messages ← pyGet status "messages" (JVal.arr [])
  let msgs ← pyIter messages
  let st ← msgs.foldlM (fun st m => processMessage m st) (false, false, [])
  let (hstart, hsucc, errs) := st
  if ¬errs.isEmpty then do
    let joined ← pyJoin "; " errs
    pure ("failed", some joined)
  else do
    let earlyMiss ←
      if hstart ∧ ¬hsucc then outputsMissing history_data
      else pure false
    if earlyMiss then pure ("failed", some "任务执行未完成且无输出")
    else do
      let miss ← outputsMissing history_data
      if miss then pure ("failed", some "任务未产生任何输出")
      else do
        let outs ← pyGetItem history_data "outputs"
        match outs with
        | JVal.obj kvs =>
          if ¬kvs.any (fun kv => nodeHasValidOutput kv.2) then
            pure ("failed", some "任务执行完成但未生成有效输出")
          else
            pure ("completed", Option.none)
        | _ => Except.error "AttributeError"

/-- `check_task_status_from_history`: the body wrapped in
`try ... except Exception: return "completed", None` — every internal
exception is swallowed and reported as success. Total by construction. -/
def check_task_status_from_history (history_data : JVal) : String × Option String :=
  match checkStatusBody history_data with
  | Except.ok r => r
  | Except.error _ => ("completed", Option.none)

/-! ## The task registry (`core/managers.py`) -/

/-- `dict.update`: existing keys keep their position and take the new
value; keys new to the dict are appended in order. -/
def dictUpdate (d upd : List (String × JVal)) : List (String × JVal) :=
  d.map (fun kv => match upd.lookup kv.1 with
    | some v => (kv.1, v)
    | Option.none => kv)
  ++ upd.filter (fun kv => ¬(d.map Prod.fst).contains kv.1)

/-- `TaskManager.update_task`: merge `updates` into the task's record only
when `task_id` is a known key; otherwise do nothing (no error, no entry
created). -/
def update_task (tasks : List (String × List (String × JVal))) (task_id : String)
    (updates : List (String × JVal)) : List (String × List (String × JVal)) :=
  if (tasks.map Prod.fst).contains task_id then
    tasks.map (fun kv => if kv.1 = task_id then (kv.1, dictUpdate kv.2 updates) else kv)
  else
    tasks

/-! ## The protocol client (`core/comfyui_client.py`) -/

/-- A WebSocket message as classified by `wait_for_completion`: the
`type` tag with the `data` fields each handler reads. `pid` is
`data.get('prompt_id')`, absent (`Option.none`) for messages that carry
none; `invalid` stands for a frame that fails JSON decoding. -/
inductive WSMsg where
  | executionStart (pid : Option String)
  | executionError (pid : Option String)
      (node_id node_type exception_type exception_message : Option String)
  | executionSuccess (pid : Option String)
  | executionInterrupted (pid : Option String) (node_id node_type : Option String)
  | executionCached (pid : Option String) (nodes : List String)
  | executing (pid : Option String) (node : Option String)
  | progress (pid : Option String) (value mx : Int)
  | executed (pid : Option String) (node : Option String)
  | statusMsg
  | invalid
  deriving DecidableEq, Repr

/-- The terminal result of the `wait_for_completion` event loop:
`success` (break), `failed` (RuntimeError), `interrupted`
(InterruptedError) or `timedOut` (TimeoutError), each with the raised
exception's message. -/
inductive LoopOutcome where
  | success
  | failed (msg : String)
  | interrupted (msg : String)
  | timedOut (msg : String)
  deriving DecidableEq, Repr

/-- The RuntimeError message raised for an `execution_error` event:
structured from the failing node id, node kind, exception type and
exception message. -/
def wan_error_reason (node_id node_type exception_type exception_message : String) : String :=
  "任务执行失败 - 节点: " ++ node_id ++ " (" ++ node_type ++ "), 错误类型: "
    ++ exception_type ++ ", 错误信息: " ++ exception_message

/-- The InterruptedError message for an `execution_interrupted` event. -/
def wan_interrupt_reason (target node_id node_type : String) : String :=
  "任务 " ++ target ++ " 被中断 - 节点: " ++ node_id ++ " (" ++ node_type ++ ")"

/-- Classify one received message for the awaited job `target`:
`some` terminal outcome, or `Option.none` for a non-terminal message
(start, cached, progress, executed, status, another job's message,
invalid JSON). Mirrors the `elif` chain of `wait_for_completion`,
including the legacy `executing` message with `node == None` meaning
success and the `.get(...)` defaults of the error fields. -/
def stepMsg (target : String) : WSMsg → Option LoopOutcome
  | WSMsg.executionError pid nid ntyp etyp emsg =>
    if pid = some target then
      some (LoopOutcome.failed (wan_error_reason (nid.getD "未知节点") (ntyp.getD "未知类型")
        (etyp.getD "Exception") (emsg.getD "未知错误")))
    else Option.none
  | WSMsg.executionSuccess pid =>
    if pid = some target then some LoopOutcome.success else Option.none
  | WSMsg.executionInterrupted pid nid ntyp =>
    if pid = some target then
      some (LoopOutcome.interrupted
        (wan_interrupt_reason target (nid.getD "未知节点") (ntyp.getD "未知类型")))
    else Option.none
  | WSMsg.executing pid node =>
    if pid = some target ∧ node = Option.none then some LoopOutcome.success
    else Option.none
  | _ => Option.none

/-- `timedelta.seconds`: the seconds component of the elapsed wall-clock
time — the total elapsed seconds with whole days discarded. This is what
the source's `(datetime.now() - start_time).seconds` computes. -/
def pySeconds (elapsed : Nat) : Nat := elapsed % 86400

/-- The TimeoutError message of `wait_for_completion`. -/
def wan_timeout_reason (target : String) (timeout : Nat) : String :=
  "任务 " ++ target ++ " 执行超时（" ++ toString timeout ++ "秒）"

/-- The `while True` loop of `wait_for_completion`: each list entry is one
received frame paired with the elapsed wall-clock seconds at the timeout
check that precedes its `ws.recv()`. The check compares
`timedelta.seconds` (days discarded) against `timeout`; a terminal
classification ends the loop at once, otherwise the next frame is read.
`Option.none` models the loop still blocked on `ws.recv()` after the last
listed frame. -/
def wait_loop (target : String) (timeout : Nat) :
    List (Nat × WSMsg) → Option LoopOutcome
  | [] => Option.none
  | (t, m) :: rest =>
    if pySeconds t > timeout then some (LoopOutcome.timedOut (wan_timeout_reason target timeout))
    else match stepMsg target m with
      | some r => some r
      | Option.none => wait_loop target timeout rest

/-- `wait_for_completion` end to end: run the event loop; on `success`
perform exactly one `get_history(prompt_id)` call — the head of
`history_responses` — and return its record for the job, raising
`ValueError("未找到任务 ... 的执行结果")` immediately when the job id is
absent from that single response. A raised loop exception becomes the
`Except.error`. -/
def wait_for_completion (target : String) (timeout : Nat)
    (events : List (Nat × WSMsg))
    (history_responses : List (List (String × JVal))) :
    Option (Except String JVal) :=
  match wait_loop target timeout events with
  | Option.none => Option.none
  | some LoopOutcome.success =>
    some (match history_responses with
      | [] => Except.error "ConnectionError"
      | h :: _ =>
        match h.lookup target with
        | some r => Except.ok r
        | Option.none => Except.error ("未找到任务 " ++ target ++ " 的执行结果"))
  | some (LoopOutcome.failed m) => some (Except.error m)
  | some (LoopOutcome.interrupted m) => some (Except.error m)
  | some (LoopOutcome.timedOut m) => some (Except.error m)

/-! ## Graph well-formedness: dangling references and acyclicity -/

/-- `a` references `b` in workflow `w`: the node stored under id `a`
(dict semantics) has a parameter reference whose target is `b`. -/
def RefOccurs (w : Workflow) (a b : String) : Prop :=
  ∃ nd, dictLookup w a = some nd ∧ b ∈ nodeRefs nd

/-- Decidable check that a workflow lists its nodes in a topological
order: keys are pairwise distinct and every node's references target a
key that occurs strictly earlier. -/
def topoCheck (seen : List String) : Workflow → Bool
  | [] => true
  | (k, nd) :: rest =>
    !(seen.contains k) && (nodeRefs nd).all (fun r => seen.contains r)
      && topoCheck (k :: seen) rest

/-- Position of a key in a key list (first occurrence; length when
absent). -/
def keyRank : List String → String → Nat
  | [], _ => 0
  | k :: ks, a => if a = k then 0 else keyRank ks a + 1

/-- Concrete 2-segment workflow: `duration=10`, `frame_rate=16`, prompts
for both segments, explicit seed 42. Equals the value of
`generate_wan22_workflow` on those arguments. -/
def w10ex : Workflow :=
  buildWorkflow "img.png" ["第一段：女孩走向海边", "第二段：女孩在海边欣赏日落"] ""
    2 480 832 16 4 42

/-- Concrete 3-segment workflow: `duration=15`, `frame_rate=24`, a single
prompt replicated, explicit seed 99. Equals the value of
`generate_wan22_workflow` on those arguments. -/
def w15ex : Workflow :=
  buildWorkflow "img.png" (List.replicate 3 "一个女孩在海边散步") "" 3 480 832 24 4 99

theorem dictLookup_go_mem {w : Workflow} {a : String} {nd : WNode} :
    ∀ acc : Option WNode,
      w.foldl (fun acc kv => if kv.1 = a then some kv.2 else acc) acc = some nd →
      (a, nd) ∈ w ∨ acc = some nd := by
  induction w with
  | nil => intro acc h; exact Or.inr h
  | cons hd tl ih =>
    intro acc h
    rcases ih (if hd.1 = a then some hd.2 else acc) h with hmem | hacc
    · exact Or.inl (List.mem_cons_of_mem _ hmem)
    · by_cases hk : hd.1 = a
      · left
        rw [if_pos hk] at hacc
        obtain ⟨rfl⟩ : hd.2 = nd := by injection hacc
        subst hk
        exact List.mem_cons_self _ _
      · right
        rwa [if_neg hk] at hacc

/-- A successful dict lookup names an entry of the workflow list. -/
theorem dictLookup_mem {w : Workflow} {a : String} {nd : WNode}
    (h : dictLookup w a = some nd) : (a, nd) ∈ w := by
  rcases dictLookup_go_mem (w := w) Option.none h with hmem | hacc
  · exact hmem
  · cases hacc

/-- Keys validated by `topoCheck` never repeat what `seen` already holds. -/
theorem topoCheck_not_seen {w : Workflow} {seen : List String}
    (h : topoCheck seen w = true) : ∀ k ∈ wfKeys w, k ∉ seen := by
  induction w generalizing seen with
  | nil => intro k hk; cases hk
  | cons hd tl ih =>
    obtain ⟨k0, nd0⟩ := hd
    simp only [topoCheck, Bool.and_eq_true, Bool.not_eq_true'] at h
    obtain ⟨⟨hnew, _⟩, hrest⟩ := h
    intro k hk
    rcases (by simpa [wfKeys] using hk : k = k0 ∨ k ∈ wfKeys tl) with rfl | hk
    · exact by simpa using hnew
    · intro hcon
      exact (ih hrest k hk) (List.mem_cons_of_mem _ hcon)

/-- Inside a `topoCheck`-validated workflow, every reference of every
entry either points back into `seen` or hits a key of the workflow that
ranks strictly below the referring node's key. -/
theorem topoCheck_ref_rank {w : Workflow} {seen : List String}
    (h : topoCheck seen w = true) :
    ∀ a nd, (a, nd) ∈ w → ∀ b ∈ nodeRefs nd,
      b ∈ seen ∨ (b ∈ wfKeys w ∧ keyRank (wfKeys w) b < keyRank (wfKeys w) a) := by
  induction w generalizing seen with
  | nil => intro a nd hmem; cases hmem
  | cons hd tl ih =>
    obtain ⟨k0, nd0⟩ := hd
    simp only [topoCheck, Bool.and_eq_true, Bool.not_eq_true', List.all_eq_true] at h
    obtain ⟨⟨hnew, hrefs⟩, hrest⟩ := h
    have hknot : k0 ∉ wfKeys tl := by
      intro hcon
      exact (topoCheck_not_seen hrest k0 hcon) (List.mem_cons_self _ _)
    have hkeys : wfKeys ((k0, nd0) :: tl) = k0 :: wfKeys tl := rfl
    intro a nd hmem b hb
    rw [List.mem_cons] at hmem
    rcases hmem with heq | hmem
    · obtain ⟨rfl, rfl⟩ := Prod.mk.injEq .. ▸ heq
      left
      simpa using hrefs b hb
    · have hatl : a ∈ wfKeys tl := List.mem_map_of_mem Prod.fst hmem
      have hane : a ≠ k0 := fun hcon => hknot (hcon ▸ hatl)
      rcases ih hrest a nd hmem b hb with hseen | ⟨hbtl, hlt⟩
      · rcases List.mem_cons.mp hseen with hbk | hbs
        · right
          subst hbk
          refine ⟨by simp [hkeys], ?_⟩
          rw [hkeys]
          have h0 : keyRank (b :: wfKeys tl) b = 0 := by simp [keyRank]
          have h1 : keyRank (b :: wfKeys tl) a = keyRank (wfKeys tl) a + 1 := by
            simp [keyRank, hane]
          omega
        · exact Or.inl hbs
      · right
        have hbne : b ≠ k0 := fun hcon => hknot (hcon ▸ hbtl)
        refine ⟨by simp [hkeys, hbtl], ?_⟩
        rw [hkeys]
        simp only [keyRank, if_neg hbne, if_neg hane]
        omega

/-- In a `topoCheck`-validated workflow every reference edge strictly
decreases the key rank. -/
theorem topoCheck_edge_rank {w : Workflow} (h : topoCheck [] w = true)
    {a b : String} (he : RefOccurs w a b) :
    keyRank (wfKeys w) b < keyRank (wfKeys w) a := by
  obtain ⟨nd, hlook, hb⟩ := he
  rcases topoCheck_ref_rank h a nd (dictLookup_mem hlook) b hb with hseen | ⟨_, hlt⟩
  · cases hseen
  · exact hlt

/-- In a `topoCheck`-validated workflow every reference resolves to a key
of the same workflow. -/
theorem topoCheck_no_dangling {w : Workflow} (h : topoCheck [] w = true) :
    ∀ kv ∈ w, ∀ b ∈ nodeRefs kv.2, b ∈ wfKeys w := by
  intro kv hmem b hb
  rcases topoCheck_ref_rank h kv.1 kv.2 hmem b hb with hseen | ⟨hkeys, _⟩
  · cases hseen
  · exact hkeys

/-- In a `topoCheck`-validated workflow the reference relation admits no
cycle: any chain of references strictly decreases the key rank. -/
theorem topoCheck_acyclic {w : Workflow} (h : topoCheck [] w = true) :
    ∀ a, ¬Relation.TransGen (RefOccurs w) a a := by
  have hchain : ∀ a b, Relation.TransGen (RefOccurs w) a b →
      keyRank (wfKeys w) b < keyRank (wfKeys w) a := by
    intro a b htg
    induction htg with
    | single he => exact topoCheck_edge_rank h he
    | tail _ he ih => exact lt_trans (topoCheck_edge_rank h he) ih
  intro a hcon
  exact lt_irrefl _ (hchain a a hcon)

/-! ## Inversion of a successful `generate_wan22_workflow` call -/

/-- A successful `generate_wan22_workflow` call produced `buildWorkflow`
applied to a prompt list of exactly `duration / 5` entries and the
resolved seed. -/
theorem generate_ok_elim {image_filename : String} {pr : PromptArg} {negative_prompt : String}
    {duration width height frame_rate steps : Nat} {seed rand_seed : Int} {w : Workflow}
    (hw : generate_wan22_workflow image_filename pr negative_prompt duration width height
      frame_rate steps seed rand_seed = Except.ok w) :
    ∃ prompts : List String, prompts.length = duration / 5 ∧
      w = buildWorkflow image_filename prompts negative_prompt (duration / 5)
        width height frame_rate steps (if seed = -1 then rand_seed else seed) := by
  unfold generate_wan22_workflow at hw
  cases pr with
  | single s =>
    refine ⟨List.replicate (duration / 5) s, List.length_replicate .., ?_⟩
    rw [if_neg (by simp)] at hw
    injection hw with h
    exact h.symm
  | list l =>
    by_cases hlen : l.length = duration / 5
    · refine ⟨l, hlen, ?_⟩
      rw [if_neg (by simp [hlen])] at hw
      injection hw with h
      exact h.symm
    · rw [if_pos (by simpa using hlen)] at hw
      cases hw

/-! ## Claim theorems -/

/-- C3 counterexample: `duration = 7` — not a positive multiple of the
5-second segment duration — is NOT rejected: the `Wan22I2VRequest`
validation accepts it (only the 5..30 range is checked) and
`generate_wan22_workflow` builds a full workflow for it, including the
final encoder node "39". This refutes the claim that such a request
yields an InvalidRequest error before any graph node is constructed. -/
theorem c3_counterexample :
    validateWan22Request ⟨PromptArg.single "一个女孩在海边散步", "", 7, 480, 832, 16, 4, -1,
        some "img.png"⟩ = Except.ok () ∧
    ∃ w, generate_wan22_workflow "img.png" (PromptArg.single "一个女孩在海边散步") ""
        7 480 832 16 4 (-1) 12345 = Except.ok w ∧ (dictLookup w "39").isSome = true :=
  ⟨rfl, ⟨_, rfl, rfl⟩⟩

/-- C3 (amended): a duration inside the validated range 5..30 is accepted
even when it is not a multiple of 5; the remainder is silently dropped —
`generate_wan22_workflow` builds a `duration / 5`-segment workflow
(with its encoder node "39") instead of rejecting the request. -/
theorem c3_nonmultiple_duration_accepted (image_filename p negative_prompt : String)
    (duration width height frame_rate steps : Nat) (seed rand_seed : Int)
    (ifn : Option String)
    (hd1 : 5 ≤ duration) (hd2 : duration ≤ 30)
    (hwi1 : 256 ≤ width) (hwi2 : width ≤ 1920)
    (hhe1 : 256 ≤ height) (hhe2 : height ≤ 1920)
    (hfr1 : 8 ≤ frame_rate) (hfr2 : frame_rate ≤ 30)
    (hst1 : 1 ≤ steps) (hst2 : steps ≤ 20) :
    validateWan22Request ⟨PromptArg.single p, negative_prompt, duration, width, height,
        frame_rate, steps, seed, ifn⟩ = Except.ok () ∧
    ∃ w, generate_wan22_workflow image_filename (PromptArg.single p) negative_prompt
        duration width height frame_rate steps seed rand_seed = Except.ok w ∧
      (dictLookup w "39").isSome = true := by
  constructor
  · unfold validateWan22Request
    simp [hd1, hd2, hwi1, hwi2, hhe1, hhe2, hfr1, hfr2, hst1, hst2]
  · refine ⟨buildWorkflow image_filename (List.replicate (duration / 5) p) negative_prompt
      (duration / 5) width height frame_rate steps
      (if seed = -1 then rand_seed else seed), ?_, ?_⟩
    · unfold generate_wan22_workflow
      rw [if_neg (by simp)]
    · have hcases : duration / 5 = 1 ∨ duration / 5 = 2 ∨ duration / 5 = 3 ∨
          duration / 5 = 4 ∨ duration / 5 = 5 ∨ duration / 5 = 6 := by omega
      rcases hcases with h | h | h | h | h | h <;> rw [h] <;> rfl

/-- C3 witness: the amended theorem at `duration = 12` (12/5 = 2
segments, remainder dropped). -/
theorem c3_witness :
    validateWan22Request ⟨PromptArg.single "p", "", 12, 480, 832, 16, 4, 7, Option.none⟩
      = Except.ok () ∧
    ∃ w, generate_wan22_workflow "img.png" (PromptArg.single "p") "" 12 480 832 16 4 7 9
      = Except.ok w ∧ (dictLookup w "39").isSome = true :=
  c3_nonmultiple_duration_accepted "img.png" "p" "" 12 480 832 16 4 7 9 Option.none
    (by decide) (by decide) (by decide) (by decide) (by decide) (by decide)
    (by decide) (by decide) (by decide) (by decide)

/-- C7: a prompt list whose length differs from the segment count
`duration / 5` is rejected both by the `Wan22I2VRequest` validator and by
`generate_wan22_workflow` itself (a `ValueError` before any node is
built); the list is never truncated or padded. -/
theorem c7_prompt_count_mismatch_rejected (image_filename negative_prompt : String)
    (l : List String) (duration width height frame_rate steps : Nat)
    (seed rand_seed : Int) (ifn : Option String)
    (hne : l.length ≠ duration / 5) :
    (∃ e, validateWan22Request ⟨PromptArg.list l, negative_prompt, duration, width, height,
        frame_rate, steps, seed, ifn⟩ = Except.error e) ∧
    (∃ e, generate_wan22_workflow image_filename (PromptArg.list l) negative_prompt
        duration width height frame_rate steps seed rand_seed = Except.error e) := by
  constructor
  · unfold validateWan22Request
    split
    · exact ⟨_, rfl⟩
    split
    · exact ⟨_, rfl⟩
    split
    · exact ⟨_, rfl⟩
    split
    · exact ⟨_, rfl⟩
    split
    · exact ⟨_, rfl⟩
    show ∃ e, (if l.length = duration / 5 then Except.ok () else
      Except.error ("提示词数量(" ++ toString l.length ++ ")与视频片段数量("
        ++ toString (duration / 5) ++ ")不匹配")) = Except.error e
    rw [if_neg hne]
    exact ⟨_, rfl⟩
  · show ∃ e, (if l.length ≠ duration / 5 then
        Except.error ("提示词数量(" ++ toString l.length ++ ")与片段数量("
          ++ toString (duration / 5) ++ ")不匹配")
      else Except.ok (buildWorkflow image_filename l negative_prompt (duration / 5)
        width height frame_rate steps (if seed = -1 then rand_seed else seed)))
      = Except.error e
    rw [if_pos hne]
    exact ⟨_, rfl⟩

/-- C7 witness: 3 prompts for `duration = 10` (2 segments) are rejected
by both the validator and the builder. -/
theorem c7_witness :
    (∃ e, validateWan22Request ⟨PromptArg.list ["a", "b", "c"], "", 10, 480, 832, 16, 4, -1,
        some "img.png"⟩ = Except.error e) ∧
    (∃ e, generate_wan22_workflow "img.png" (PromptArg.list ["a", "b", "c"]) ""
        10 480 832 16 4 (-1) 5 = Except.error e) :=
  c7_prompt_count_mismatch_rejected "img.png" "" ["a", "b", "c"] 10 480 832 16 4 (-1) 5
    (some "img.png") (by decide)

/-- C8: in every workflow built from a valid request, segment `i`'s
`KSampler` seed equals `base_seed + i * 1_000_000` (the base seed being
the request's seed, or the drawn random value when the request asked for
-1), and the assigned seeds are strictly increasing in the segment index,
hence pairwise distinct. -/
theorem c8_segment_seeds (image_filename : String) (pr : PromptArg)
    (negative_prompt : String) (duration width height frame_rate steps : Nat)
    (seed rand_seed : Int) (w : Workflow)
    (hd1 : 5 ≤ duration) (hd2 : duration ≤ 30)
    (hw : generate_wan22_workflow image_filename pr negative_prompt duration width height
      frame_rate steps seed rand_seed = Except.ok w) :
    (∀ i, i < duration / 5 → samplerSeed w i
        = some (NVal.int ((if seed = -1 then rand_seed else seed) + (i : Int) * 1000000))) ∧
    (∀ i j, i < j → j < duration / 5 →
      ∃ si sj, asInt (samplerSeed w i) = some si ∧ asInt (samplerSeed w j) = some sj ∧
        si < sj) := by
  obtain ⟨prompts, hlen, rfl⟩ := generate_ok_elim hw
  have hA : ∀ i, i < duration / 5 →
      samplerSeed (buildWorkflow image_filename prompts negative_prompt (duration / 5)
          width height frame_rate steps (if seed = -1 then rand_seed else seed)) i
        = some (NVal.int ((if seed = -1 then rand_seed else seed) + (i : Int) * 1000000)) := by
    have hcases : duration / 5 = 1 ∨ duration / 5 = 2 ∨ duration / 5 = 3 ∨
        duration / 5 = 4 ∨ duration / 5 = 5 ∨ duration / 5 = 6 := by omega
    rcases hcases with h | h | h | h | h | h <;> rw [h] <;>
      intro i hi <;> interval_cases i <;> rfl
  refine ⟨hA, ?_⟩
  intro i j hij hj
  refine ⟨(if seed = -1 then rand_seed else seed) + (i : Int) * 1000000,
    (if seed = -1 then rand_seed else seed) + (j : Int) * 1000000, ?_, ?_, ?_⟩
  · rw [hA i (lt_trans hij hj)]; rfl
  · rw [hA j hj]; rfl
  · have hij' : (i : Int) < (j : Int) := by exact_mod_cast hij
    have := mul_lt_mul_of_pos_right hij' (by norm_num : (0 : Int) < 1000000)
    omega

/-- C8 witness: the 2-segment workflow `w10ex` (base seed 42) carries
seeds 42 and 1000042, in increasing order. -/
theorem c8_witness :
    (samplerSeed w10ex 0 = some (NVal.int 42) ∧
     samplerSeed w10ex 1 = some (NVal.int 1000042)) ∧
    (∃ s0 s1, asInt (samplerSeed w10ex 0) = some s0 ∧
      asInt (samplerSeed w10ex 1) = some s1 ∧ s0 < s1) := by
  obtain ⟨hA, hB⟩ := c8_segment_seeds "img.png"
    (PromptArg.list ["第一段：女孩走向海边", "第二段：女孩在海边欣赏日落"]) ""
    10 480 832 16 4 42 7 w10ex (by decide) (by decide) rfl
  exact ⟨⟨by simpa using hA 0 (by decide), by simpa using hA 1 (by decide)⟩,
    hB 0 1 (by decide) (by decide)⟩

/-- C9: `check_task_status_from_history` is total (it is a Lean function
on arbitrary `JVal` history records), and whenever inspecting the record
raises an exception internally (the embedded body returns `Except.error`),
the `except Exception` fallback reports status "completed" with no error
message. -/
theorem c9_exception_fallback_completed (history_data : JVal) (e : String)
    (h : checkStatusBody history_data = Except.error e) :
    check_task_status_from_history history_data = ("completed", Option.none) := by
  unfold check_task_status_from_history
  rw [h]

/-- C9 witness: a history record whose `execution_error` message carries a
non-dict payload makes the body raise (`.get` on an int), and the record
— an error record! — is classified "completed" with no error message. -/
theorem c9_witness :
    checkStatusBody (JVal.obj [("status", JVal.obj [("messages",
        JVal.arr [JVal.arr [JVal.str "execution_error", JVal.int 42]])])])
      = Except.error "AttributeError" ∧
    check_task_status_from_history (JVal.obj [("status", JVal.obj [("messages",
        JVal.arr [JVal.arr [JVal.str "execution_error", JVal.int 42]])])])
      = ("completed", Option.none) :=
  ⟨rfl, c9_exception_fallback_completed _ "AttributeError" rfl⟩

/-- C10: `TaskManager.update_task` on a task id absent from the task
mapping raises no error and leaves the mapping entirely unchanged — the
update is silently discarded and no entry is created. -/
theorem c10_update_unknown_task_noop (tasks : List (String × List (String × JVal)))
    (task_id : String) (updates : List (String × JVal))
    (h : task_id ∉ tasks.map Prod.fst) :
    update_task tasks task_id updates = tasks := by
  unfold update_task
  rw [if_neg (by simpa using h)]

/-- C10 witness: a terminal status update for an unknown job id leaves a
one-task registry untouched. -/
theorem c10_witness :
    update_task [("job-a", [("status", JVal.str "pending")])] "job-b"
        [("status", JVal.str "completed")]
      = [("job-a", [("status", JVal.str "pending")])] :=
  c10_update_unknown_task_noop [("job-a", [("status", JVal.str "pending")])] "job-b"
    [("status", JVal.str "completed")] (by decide)

/-- C2: when an `execution_error` event for the awaited job arrives after
any number of non-terminal, in-deadline events, `wait_for_completion`'s
loop terminates at once with the Failed outcome (RuntimeError) whose
reason is structured from the failing node id, node kind, exception type
and exception message (the `.get` defaults applying when fields are
absent). The result does not depend on `rest`, so no later event — in
particular a subsequent `execution_success` — is consumed for this job:
first terminal wins, at most one outcome. -/
theorem c2_error_event_wins (target : String) (timeout : Nat)
    (pre rest : List (Nat × WSMsg)) (t : Nat)
    (nid ntyp etyp emsg : Option String)
    (hpre : ∀ e ∈ pre, stepMsg target e.2 = Option.none ∧ pySeconds e.1 ≤ timeout)
    (ht : pySeconds t ≤ timeout) :
    wait_loop target timeout
        (pre ++ (t, WSMsg.executionError (some target) nid ntyp etyp emsg) :: rest)
      = some (LoopOutcome.failed (wan_error_reason (nid.getD "未知节点") (ntyp.getD "未知类型")
          (etyp.getD "Exception") (emsg.getD "未知错误"))) := by
  induction pre with
  | nil =>
    simp only [List.nil_append, wait_loop]
    rw [if_neg (by omega)]
    simp [stepMsg]
  | cons hd tl ih =>
    obtain ⟨hstep, htime⟩ := hpre hd (List.mem_cons_self _ _)
    simp only [List.cons_append, wait_loop]
    rw [if_neg (by omega), hstep]
    exact ih (fun e he => hpre e (List.mem_cons_of_mem _ he))

/-- C2 witness: a progress event, then an error event, then a success
event for the same job — the outcome is the structured Failed of the
error event; the trailing success is ignored. -/
theorem c2_witness :
    wait_loop "J" 600
        [(0, WSMsg.progress (some "J") 5 100),
         (1, WSMsg.executionError (some "J") (some "70:8") (some "KSampler")
            (some "RuntimeError") (some "CUDA out of memory")),
         (2, WSMsg.executionSuccess (some "J"))]
      = some (LoopOutcome.failed
          (wan_error_reason "70:8" "KSampler" "RuntimeError" "CUDA out of memory")) := by
  have h := c2_error_event_wins "J" 600 [(0, WSMsg.progress (some "J") 5 100)]
    [(2, WSMsg.executionSuccess (some "J"))] 1
    (some "70:8") (some "KSampler") (some "RuntimeError") (some "CUDA out of memory")
    (by intro e he
        rcases List.mem_singleton.mp he with rfl
        exact ⟨rfl, by decide⟩)
    (by decide)
  exact h

/-- C4 evaluation at the failing input: with `timeout = 600`, an
`execution_success` event received at elapsed wall-clock time 86401 s
(one day plus one second — far beyond the deadline) is still processed
and yields the success outcome, because the loop compares
`timedelta.seconds` — the elapsed time with whole days discarded,
`86401 % 86400 = 1` — against the timeout instead of the total elapsed
seconds. The claim (and the function's own docstring) requires TimedOut
whenever elapsed exceeds `timeout`. -/
theorem c4_timeout_check_wraps_after_a_day :
    (600 : Nat) < 86401 ∧ pySeconds 86401 = 1 ∧
    wait_loop "X" 600 [(86401, WSMsg.executionSuccess (some "X"))]
      = some LoopOutcome.success :=
  ⟨by decide, rfl, rfl⟩

/-- C5 counterexample: after a successful event-loop outcome, a history
response that lacks the awaited job id makes `wait_for_completion` raise
`ValueError("未找到任务 ... 的执行结果")` immediately — even though a
second history fetch (the next oracle response, which does contain the
job) would have succeeded. There is no retry, backoff, or bounded retry
loop: the first absent lookup already fails the job. -/
theorem c5_counterexample :
    wait_for_completion "J" 600 [(0, WSMsg.executionSuccess (some "J"))]
        [[], [("J", JVal.obj [("outputs", JVal.obj [])])]]
      = some (Except.error "未找到任务 J 的执行结果") := rfl

/-- C5 (amended): on terminal Succeeded the client performs exactly one
history fetch; whenever the job id is absent from that single response it
immediately surfaces the missing-result failure, irrespective of any
further responses the server would have given (`rest` is arbitrary and
never consulted). -/
theorem c5_missing_history_fails_immediately (target : String) (timeout : Nat)
    (events : List (Nat × WSMsg)) (h1 : List (String × JVal))
    (rest : List (List (String × JVal)))
    (hs : wait_loop target timeout events = some LoopOutcome.success)
    (habs : h1.lookup target = Option.none) :
    wait_for_completion target timeout events (h1 :: rest)
      = some (Except.error ("未找到任务 " ++ target ++ " 的执行结果")) := by
  unfold wait_for_completion
  rw [hs]
  simp [habs]

/-- C5 witness: the amended theorem at a concrete run — legacy
`executing node=None` success signal, one history response without the
job. -/
theorem c5_witness :
    wait_for_completion "K" 30 [(1, WSMsg.executing (some "K") Option.none)]
        [[("X", JVal.null)]]
      = some (Except.error ("未找到任务 " ++ "K" ++ " 的执行结果")) :=
  c5_missing_history_fails_immediately "K" 30 [(1, WSMsg.executing (some "K") Option.none)]
    [("X", JVal.null)] [] rfl rfl

/-- C1: in every workflow built from a valid multi-segment request
(`N = duration / 5 > 1`), segment 0's render length is exactly
`segment_length` frames (81 when `frame_rate = 16`, else
`round(5 * frame_rate) = 5 * frame_rate`), every segment `i > 0` renders
exactly `segment_length + overlap_frames` frames with
`overlap_frames = clamp(round(frame_rate), 8, 24)`, the merge stage trims
exactly `overlap_frames` from the start of every non-first segment
keeping exactly `segment_length` frames, and the merged timeline
(segment 0's render plus the kept frames of all later segments) holds
exactly `N * segment_length` frames. -/
theorem c1_duration_preservation (image_filename : String) (pr : PromptArg)
    (negative_prompt : String) (duration width height frame_rate steps : Nat)
    (seed rand_seed : Int) (w : Workflow)
    (hd1 : 5 ≤ duration) (hd2 : duration ≤ 30) (hmulti : 2 ≤ duration / 5)
    (hw : generate_wan22_workflow image_filename pr negative_prompt duration width height
      frame_rate steps seed rand_seed = Except.ok w) :
    (∀ i, i < duration / 5 → renderLen w i
        = some (NVal.int (((if i = 0 then (if frame_rate = 16 then 81 else 5 * frame_rate)
            else (if frame_rate = 16 then 81 else 5 * frame_rate)
              + max 8 (min 24 frame_rate)) : Nat) : Int))) ∧
    (∀ i, 1 ≤ i → i < duration / 5 →
      trimStart w i = some (NVal.int ((max 8 (min 24 frame_rate) : Nat) : Int)) ∧
      trimLen w i = some (NVal.int (((if frame_rate = 16 then 81 else 5 * frame_rate) : Nat) : Int))) ∧
    (∃ total : Int, mergedFrames w (duration / 5) = some total ∧
      total = ((duration / 5 : Nat) : Int)
        * (((if frame_rate = 16 then 81 else 5 * frame_rate) : Nat) : Int)) := by
  obtain ⟨prompts, hlen, rfl⟩ := generate_ok_elim hw
  have hcases : duration / 5 = 2 ∨ duration / 5 = 3 ∨ duration / 5 = 4 ∨
      duration / 5 = 5 ∨ duration / 5 = 6 := by omega
  rcases hcases with h | h | h | h | h <;> rw [h] <;>
    refine ⟨fun i hi => ?_, fun i hi1 hi2 => ?_, ⟨_, rfl, by
      simp only [List.reverse_cons, List.reverse_nil, List.nil_append, List.cons_append,
        List.sum_cons, List.sum_nil, List.sum_append]
      push_cast
      ring⟩⟩ <;>
    interval_cases i <;>
    first
      | rfl
      | exact ⟨rfl, rfl⟩

/-- C1 witness: the claim's own scenario — `duration = 10`,
`frame_rate = 16`: 2 segments, segment 0 renders 81 frames, segment 1
renders 97 frames, the merge trims 16 and keeps 81, the merged timeline
holds 162 frames. -/
theorem c1_witness :
    renderLen w10ex 0 = some (NVal.int 81) ∧
    renderLen w10ex 1 = some (NVal.int 97) ∧
    trimStart w10ex 1 = some (NVal.int 16) ∧
    trimLen w10ex 1 = some (NVal.int 81) ∧
    mergedFrames w10ex 2 = some 162 := by
  obtain ⟨hA, hB, hC⟩ := c1_duration_preservation "img.png"
    (PromptArg.list ["第一段：女孩走向海边", "第二段：女孩在海边欣赏日落"]) ""
    10 480 832 16 4 42 7 w10ex (by decide) (by decide) (by decide) rfl
  refine ⟨?_, ?_, ?_, ?_, ?_⟩
  · simpa using hA 0 (by decide)
  · simpa using hA 1 (by decide)
  · simpa using (hB 1 (by decide) (by decide)).1
  · simpa using (hB 1 (by decide) (by decide)).2
  · obtain ⟨total, hm, htot⟩ := hC
    rw [hm, htot]
    decide

/-- C6: every workflow built from a valid request is reference-closed and
acyclic — each parameter reference `[node_id, output_slot]` of each node
targets a node id that is a key of the same workflow mapping, and no node
reaches itself through any chain of parameter references. -/
theorem c6_no_dangling_and_acyclic (image_filename : String) (pr : PromptArg)
    (negative_prompt : String) (duration width height frame_rate steps : Nat)
    (seed rand_seed : Int) (w : Workflow)
    (hd1 : 5 ≤ duration) (hd2 : duration ≤ 30)
    (hw : generate_wan22_workflow image_filename pr negative_prompt duration width height
      frame_rate steps seed rand_seed = Except.ok w) :
    (∀ kv ∈ w, ∀ b ∈ nodeRefs kv.2, b ∈ wfKeys w) ∧
    (∀ a, ¬Relation.TransGen (RefOccurs w) a a) := by
  obtain ⟨prompts, hlen, rfl⟩ := generate_ok_elim hw
  have hchk : topoCheck [] (buildWorkflow image_filename prompts negative_prompt
      (duration / 5) width height frame_rate steps
      (if seed = -1 then rand_seed else seed)) = true := by
    have hcases : duration / 5 = 1 ∨ duration / 5 = 2 ∨ duration / 5 = 3 ∨
        duration / 5 = 4 ∨ duration / 5 = 5 ∨ duration / 5 = 6 := by omega
    rcases hcases with h | h | h | h | h | h <;> rw [h] <;> rfl
  exact ⟨topoCheck_no_dangling hchk, topoCheck_acyclic hchk⟩

/-- C6 witness: the 3-segment workflow `w15ex` is reference-closed and
acyclic. -/
theorem c6_witness :
    (∀ kv ∈ w15ex, ∀ b ∈ nodeRefs kv.2, b ∈ wfKeys w15ex) ∧
    (∀ a, ¬Relation.TransGen (RefOccurs w15ex) a a) :=
  c6_no_dangling_and_acyclic "img.png" (PromptArg.single "一个女孩在海边散步") ""
    15 480 832 24 4 99 0 w15ex (by decide) (by decide) rfl

end YsMovie
